import Mathlib

/-!
Shallow embedding of `src/main.c` of the debayer-ssbo-demo repository.

The program is a linear pipeline: parse options with getopt("f:h"), read the
input file, initialize an EGL/GBM context, compile a compute shader, allocate
two shader storage buffers, dispatch once, wait on a fence, map the output
buffer and write it to a file, then tear everything down.

External calls (libc file I/O, EGL, GLES) are modelled by oracle environments:
each environment field records the result the corresponding external call
returns in a given run.  The functions below mirror the C control flow over
those oracles; observable actions (sizes passed to calls, release order,
messages printed, the fence handle at the wait) are recorded in result records.
-/

namespace Debayer

/-- GL_NO_ERROR is 0 in GLES. -/
def GL_NO_ERROR : Int := 0

/-- EXIT_FAILURE from stdlib.h. -/
def EXIT_FAILURE : Int := 1

/-- #define LSIZE_X 32 (src/main.c:315). -/
def LSIZE_X : Int := 32

/-- #define LSIZE_Y 8 (src/main.c:316). -/
def LSIZE_Y : Int := 8

/-- #define WG_NUM_X (1920 / LSIZE_X) (src/main.c:318). -/
def WG_NUM_X : Int := 1920 / LSIZE_X

/-- #define WG_NUM_Y (1080 / LSIZE_Y) (src/main.c:319). -/
def WG_NUM_Y : Int := 1080 / LSIZE_Y

/-- The C cast `(GLsizei)x`: two's-complement wrap of a `long` value to a
32-bit signed `int`, as performed at src/main.c:388 and :397. -/
def glsizei (x : Int) : Int := (x + 2147483648) % 4294967296 - 2147483648

/-! ## File I/O helpers (src/main.c:37-95)

A `FileEnv` is the oracle for one `read_input_file` call: whether `fopen`
succeeds, what `ftell` reports after seeking to the end, whether `malloc`
succeeds, and how many bytes `fread` returns. -/

structure FileEnv where
  openOk : Bool
  size : Int
  mallocOk : Bool
  freadBytes : Int
deriving DecidableEq, Repr

/-- Events performed by `read_input_file`, in order. -/
inductive FileEv where
  | fopenEv (mode : String)
  | fseekEnd
  | ftellEv
  | fseekSet
  | mallocEv
  | freadEv
  | freeEv
  | fcloseEv
deriving DecidableEq, Repr

structure ReadOut where
  ret : Int
  events : List FileEv
  /-- whether `*data` was set, i.e. buffer ownership passed to the caller -/
  delivered : Bool
deriving DecidableEq, Repr

/-- `read_input_file` (src/main.c:37-68).  The file name argument is abstracted
into the oracle; the mode string is the second argument of `fopen`.
Control flow: fopen failure returns 0; `fseek(END); ftell; fseek(SET)`;
non-positive size goes to `err_seek` (fclose, return -1); malloc failure goes
to `err_seek`; a short `fread` goes to `err_fread` (free, fclose, return -1);
otherwise fclose, set `*data`, return the size. -/
def read_input_file (mode : String) (env : FileEnv) : ReadOut :=
  if ¬env.openOk then
    { ret := 0, events := [.fopenEv mode], delivered := false }
  else if env.size ≤ 0 then
    { ret := -1, events := [.fopenEv mode, .fseekEnd, .ftellEv, .fseekSet, .fcloseEv],
      delivered := false }
  else if ¬env.mallocOk then
    { ret := -1,
      events := [.fopenEv mode, .fseekEnd, .ftellEv, .fseekSet, .mallocEv, .fcloseEv],
      delivered := false }
  else if env.freadBytes ≠ env.size then
    { ret := -1,
      events := [.fopenEv mode, .fseekEnd, .ftellEv, .fseekSet, .mallocEv, .freadEv,
                 .freeEv, .fcloseEv],
      delivered := false }
  else
    { ret := env.size,
      events := [.fopenEv mode, .fseekEnd, .ftellEv, .fseekSet, .mallocEv, .freadEv,
                 .fcloseEv],
      delivered := true }

/-- `read_input_bin_file` (src/main.c:71-74): mode "rb". -/
def read_input_bin_file (env : FileEnv) : ReadOut := read_input_file "rb" env

/-- `read_input_text_file` (src/main.c:76-79): mode "r". -/
def read_input_text_file (env : FileEnv) : ReadOut := read_input_file "r" env

/-- Oracle for one `write_output_file` call: whether `fopen("wb")` succeeds and
how many bytes `fwrite` reports written. -/
structure WriteEnv where
  openOk : Bool
  fwriteBytes : Int
deriving DecidableEq, Repr

structure WriteOut where
  ret : Int
  /-- bytes present in the output file: `none` if it was never opened. -/
  fileBytes : Option Int
deriving DecidableEq, Repr

/-- `write_output_file` (src/main.c:81-95): fopen "wb" failure returns 0; a
short fwrite closes the file and returns -1; otherwise returns `data_size`. -/
def write_output_file (dataSize : Int) (env : WriteEnv) : WriteOut :=
  if ¬env.openOk then { ret := 0, fileBytes := none }
  else if env.fwriteBytes ≠ dataSize then { ret := -1, fileBytes := some env.fwriteBytes }
  else { ret := dataSize, fileBytes := some env.fwriteBytes }

/-! ## EGL initialization and teardown (src/main.c:115-225) -/

/-- The four OS / driver resources handled by `init_egl` / `deinit_egl`. -/
inductive EglRes where
  | fd   -- render node file descriptor (open)
  | gbm  -- GBM device (gbm_create_device)
  | dpy  -- EGL display connection (eglGetPlatformDisplay / eglInitialize)
  | ctx  -- EGL context (eglCreateContext)
deriving DecidableEq, Repr

/-- Oracle for one `init_egl` call, one field per external call outcome. -/
structure EglEnv where
  openOk : Bool        -- open(render_node, O_RDWR) ≥ 0
  gbmOk : Bool         -- gbm_create_device ≠ NULL
  dpyOk : Bool         -- eglGetPlatformDisplay ≠ NULL
  initOk : Bool        -- eglInitialize == EGL_TRUE
  extOk : Bool         -- both required extensions found by strstr
  cfgCountOk : Bool    -- first eglChooseConfig (count query); failure only prints
  cfgOk : Bool         -- second eglChooseConfig
  bindOk : Bool        -- eglBindAPI
  ctxOk : Bool         -- eglCreateContext ≠ EGL_NO_CONTEXT
  curOk : Bool         -- eglMakeCurrent
deriving DecidableEq, Repr

structure EglOut where
  ret : Int
  /-- resources acquired, in acquisition order -/
  acquired : List EglRes
  /-- resources released before returning, in release order -/
  released : List EglRes
deriving DecidableEq, Repr

/-- The `err_gbm` label (src/main.c:214): close(fd). -/
def relGbmLabel : List EglRes := [.fd]

/-- The `err_egl_dpy` label (src/main.c:212): gbm_device_destroy, then fall
through to `err_gbm`. -/
def relDpyLabel : List EglRes := .gbm :: relGbmLabel

/-- The `err_egl_ctx` label (src/main.c:210): eglTerminate, then fall through
to `err_egl_dpy`. -/
def relCtxLabel : List EglRes := .dpy :: relDpyLabel

/-- The `err_egl_make_current` label (src/main.c:208): eglDestroyContext, then
fall through to `err_egl_ctx`. -/
def relCurLabel : List EglRes := .ctx :: relCtxLabel

/-- `init_egl` (src/main.c:115-217).  Mirrors the goto-based unwind chain.
Note that a failure of the first `eglChooseConfig` count query
(src/main.c:164-166) only prints a message and does not branch. -/
def init_egl (env : EglEnv) : EglOut :=
  if ¬env.openOk then { ret := -1, acquired := [], released := [] }
  else if ¬env.gbmOk then
    { ret := -1, acquired := [.fd], released := relGbmLabel }
  else if ¬env.dpyOk then
    { ret := -1, acquired := [.fd, .gbm], released := relDpyLabel }
  else if ¬env.initOk then
    { ret := -1, acquired := [.fd, .gbm, .dpy], released := relCtxLabel }
  else if ¬env.extOk then
    { ret := -1, acquired := [.fd, .gbm, .dpy], released := relCtxLabel }
  else if ¬env.cfgOk then
    { ret := -1, acquired := [.fd, .gbm, .dpy], released := relCtxLabel }
  else if ¬env.bindOk then
    { ret := -1, acquired := [.fd, .gbm, .dpy], released := relCtxLabel }
  else if ¬env.ctxOk then
    { ret := -1, acquired := [.fd, .gbm, .dpy], released := relCtxLabel }
  else if ¬env.curOk then
    { ret := -1, acquired := [.fd, .gbm, .dpy, .ctx], released := relCurLabel }
  else
    { ret := 0, acquired := [.fd, .gbm, .dpy, .ctx], released := [] }

/-- `deinit_egl` (src/main.c:219-225): eglDestroyContext, eglTerminate,
gbm_device_destroy, close — unconditionally, in this order. -/
def deinit_egl : List EglRes := [.ctx, .dpy, .gbm, .fd]

/-! ## Shader loading (src/main.c:227-313) -/

/-- Oracle for one `init_shader` call.  `logLen`, `logMallocOk` and `errGetLog`
only influence which diagnostic is printed on a compile failure
(src/main.c:263-275); every compile-failure path returns GL_TRUE (= 1). -/
structure ShaderEnv where
  srcFile : FileEnv     -- oracle of read_input_text_file(conv->shader_fname)
  createShaderOk : Bool -- glCreateShader ≠ 0
  errCreateShader : Int -- glGetError() observed when glCreateShader failed
  errAfterSource : Int  -- glGetError() after glShaderSource
  compileOk : Bool      -- GL_COMPILE_STATUS == GL_TRUE
  logLen : Int          -- GL_INFO_LOG_LENGTH
  logMallocOk : Bool    -- malloc for the compile log
  errGetLog : Int       -- glGetError() after glGetShaderInfoLog
  createProgramOk : Bool -- glCreateProgram ≠ 0
  errCreateProgram : Int -- glGetError() observed when glCreateProgram failed
  errAttach : Int       -- glGetError() after glAttachShader
  errLink : Int         -- glGetError() after glLinkProgram
deriving DecidableEq, Repr

/-- `init_shader` (src/main.c:227-301), return value only.  A failed source
read or a failed compile returns GL_TRUE (= 1, since GL_NO_ERROR == GL_FALSE);
other failures return the observed GL error code; success returns 0. -/
def init_shader (env : ShaderEnv) : Int :=
  if (read_input_text_file env.srcFile).ret ≤ 0 then 1
  else if ¬env.createShaderOk then env.errCreateShader
  else if env.errAfterSource ≠ GL_NO_ERROR then env.errAfterSource
  else if ¬env.compileOk then 1
  else if ¬env.createProgramOk then env.errCreateProgram
  else if env.errAttach ≠ GL_NO_ERROR then env.errAttach
  else if env.errLink ≠ GL_NO_ERROR then env.errLink
  else 0

/-- `use_shader` (src/main.c:303-307): glUseProgram, then return
`glGetError() != GL_NO_ERROR` as an int.  The argument is the oracle value of
that glGetError call. -/
def use_shader (errUse : Int) : Int :=
  if errUse ≠ GL_NO_ERROR then 1 else 0

/-! ## Command-line option processing

`main` (src/main.c:343-357) loops on `getopt(argc, argv, "f:h")`.  The model
below reproduces glibc getopt over the argument vector (argv[1..]): argument
permutation (non-option elements are collected as operands while every option
element is processed), `--` terminating option scanning, bundled short options
within one element, and a `:`-suffixed option taking the rest of its element
or, failing that, the next element as its argument.  Option characters not in
the option string, and an option with a missing argument, are reported to the
caller as '?'. -/

/-- The option string passed to getopt (src/main.c:344). -/
def optstring : String := "f:h"

/-- Parse an option string into (option character, takes-argument) pairs. -/
def optSpecOf : List Char → List (Char × Bool)
  | [] => []
  | c :: ':' :: rest => (c, true) :: optSpecOf rest
  | c :: rest => (c, false) :: optSpecOf rest

def optSpec : List (Char × Bool) := optSpecOf optstring.toList

/-- Look an option character up in the option string: `none` if unknown,
otherwise whether it takes an argument. -/
def optLookup (c : Char) : Option Bool :=
  (optSpec.find? (fun p => p.1 == c)).map (fun p => p.2)

/-- One result of a `getopt` call, before the end-of-options -1. -/
inductive OptEvent where
  | opt (c : Char) (arg : Option String)
  | unknown (c : Char)
  | missingArg (c : Char)
deriving DecidableEq, Repr

/-- The (character, optarg) pair `main`'s switch observes for an event;
unknown options and missing arguments are reported as '?'. -/
def eventView : OptEvent → Char × Option String
  | .opt c a => (c, a)
  | .unknown _ => ('?', none)
  | .missingArg _ => ('?', none)

/-- Handling of one option character `c` within an option element: an
unknown character is reported as such and scanning continues (`rec` is the
scan of the remaining characters `cs`); a plain option is emitted and
scanning continues; an argument-taking option takes the rest of its element
(`cs`) if nonempty, else the next argv element (`next`, the `Bool` records
that it was consumed), else its argument is missing — and element scanning
stops. -/
def scanStep (c : Char) (cs : List Char) (next : Option String)
    (rec : List OptEvent × Bool) : List OptEvent × Bool :=
  match optLookup c with
  | none => (OptEvent.unknown c :: rec.1, rec.2)
  | some false => (OptEvent.opt c none :: rec.1, rec.2)
  | some true =>
    if cs.isEmpty then
      match next with
      | none => ([OptEvent.missingArg c], false)
      | some a => ([OptEvent.opt c (some a)], true)
    else ([OptEvent.opt c (some (String.mk cs))], false)

/-- Scan the option characters of one option element.  `next` is the following
argv element, if any; the `Bool` result says whether it was consumed as the
argument of a `:`-option. -/
def scanElem : List Char → Option String → List OptEvent × Bool
  | [], _ => ([], false)
  | c :: cs, next => scanStep c cs next (scanElem cs next)

/-- Run getopt("f:h") over argv[1..]: the stream of option events, and the
operand list left over (`argv[optind..]` after the final -1). -/
def getoptRun : List String → List OptEvent × List String
  | [] => ([], [])
  | a :: rest =>
    if a = "--" then ([], rest)
    else
      match a.toList with
      | '-' :: c :: cs =>
        if (scanElem (c :: cs) rest.head?).2 then
          match rest with
          | [] => ((scanElem (c :: cs) rest.head?).1, [])
          | _ :: rest2 =>
            ((scanElem (c :: cs) rest.head?).1 ++ (getoptRun rest2).1, (getoptRun rest2).2)
        else ((scanElem (c :: cs) rest.head?).1 ++ (getoptRun rest).1, (getoptRun rest).2)
      | _ => ((getoptRun rest).1, a :: (getoptRun rest).2)

/-- `parse_bayer_order` (src/main.c:327-330): `return -1; /* not implemented
yet */`.  The out-parameter `*bo` is never written. -/
def parse_bayer_order (p : String) : Int := -1

/-- #define USAGE (src/main.c:321-325), with the `%s` conversion left as in
the source format string. -/
def USAGE : String :=
  "Usage: %s [-h] -s XxY -f <format> <inputfile> <outputfile>\n-f <order>   Specify input file format\n-s XxY       Specify input image size (e.g. 640x480)\n-h           Shows this help\n"

/-- Messages `main` prints, tagged. -/
inductive Msg where
  | usage            -- printf(USAGE, argv[0])
  | giveInOut        -- "Give input and output files"
  | failedReadInput  -- "Failed to read input file ..."
  | badBayer         -- "bad bayer order"
  | eglFailed        -- "EGL initialization failed"
  | shaderFailed     -- "Shader creation failed"
  | bufInErr         -- "glBufferData(in, ...) error ..."
  | bufOutErr        -- "glBufferData(out, ...) error ..."
  | useShaderFailed  -- "use_shader() failed"
  | dispatchCompErr  -- "glDispatchCompute() error ..."
  | mapFailed        -- "glMapBufferRange(out) error ..."
  | bytesWritten (n : Int)  -- "...: %ld bytes written"
deriving DecidableEq, Repr

/-- The option-processing loop of `main` (src/main.c:343-357): `some (r, m)`
means the loop returned early from main with value `r` after printing `m`;
`none` means getopt ran to -1 and main falls through.  The switch handles only
'f' (src/main.c:347) and 'h' (src/main.c:353); any other character, including
'?', falls out of the switch and the loop continues. -/
def optLoop : List OptEvent → Option (Int × Msg)
  | [] => none
  | e :: rest =>
    if (eventView e).1 = 'f' then
      if parse_bayer_order ((eventView e).2.getD "") < 0 then some (-1, Msg.badBayer)
      else optLoop rest
    else if (eventView e).1 = 'h' then some (0, Msg.usage)
    else optLoop rest

/-! ## The entry point (src/main.c:332-452) -/

/-- Oracle for one run of `main` past option processing: the input-file read,
the EGL and shader initialization calls, the glGetError values observed after
each checked GL call, the fence handle glFenceSync returns, whether
glMapBufferRange returns non-NULL, and the output-file write. -/
structure MainEnv where
  inFile : FileEnv     -- oracle of read_input_bin_file(argv[optind])
  egl : EglEnv         -- oracle of init_egl
  shader : ShaderEnv   -- oracle of init_shader
  errBufIn : Int       -- glGetError() after glBufferData(in)  (src/main.c:390)
  errBufOut : Int      -- glGetError() after glBufferData(out) (src/main.c:399)
  errUseShader : Int   -- glGetError() inside use_shader       (src/main.c:306)
  errDispatch : Int    -- glGetError() after glDispatchCompute (src/main.c:415)
  fence : Nat          -- the handle glFenceSync returns       (src/main.c:423)
  mapOk : Bool         -- glMapBufferRange ≠ NULL              (src/main.c:431)
  outFile : WriteEnv   -- oracle of write_output_file(argv[optind+1])
deriving DecidableEq, Repr

/-- Observables of one run of `main`. -/
structure MainOut where
  /-- the process exit status: the value of `return` from main, or the
  argument of `exit` -/
  ret : Int
  prints : List Msg
  /-- size argument of glBufferData on the input buffer, if that call ran -/
  inBufSize : Option Int := none
  /-- size argument of glBufferData on the output buffer, if that call ran -/
  outBufSize : Option Int := none
  /-- how many times the dispatch loop body was entered -/
  loopIters : Nat := 0
  /-- (x, y, z) arguments of glDispatchCompute, if that call ran -/
  dispatchDims : Option (Int × Int × Int) := none
  /-- whether glClientWaitSync ran -/
  waitIssued : Bool := false
  /-- value of the local `sync` at the glClientWaitSync call: `none` models
  the uninitialized handle -/
  syncAtWait : Option Nat := none
  /-- timeout argument of glClientWaitSync, if it ran -/
  waitTimeout : Option Int := none
  /-- length argument of glMapBufferRange, if that call ran -/
  mapLen : Option Int := none
  /-- size argument of write_output_file, if that call ran -/
  writeReq : Option Int := none
  /-- bytes present in the output file (`none`: never created) -/
  fileBytes : Option Int := none
  /-- whether the cleanup block at err_buffs ran (glDeleteBuffers,
  free_shader, deinit_egl, free) -/
  teardown : Bool := false
  /-- whether control reached the dispatch loop (src/main.c:408) -/
  reachedDispatchPhase : Bool := false
deriving DecidableEq, Repr

/-- The buffer/dispatch/write block of `main` ("Do the things here...",
src/main.c:382-451), entered after `init_shader` succeeded.  Mirrors, in
order: the two glBufferData calls with their `(GLsizei)` casts and error
checks that `goto err_buffs`; the single-iteration dispatch loop
(`for (i=0; i < 1; i++)`, src/main.c:408) whose body breaks before
`sync = glFenceSync(...)` when use_shader fails or the post-dispatch error
check fails; the unconditional glClientWaitSync with timeout `100*1000`;
glMapBufferRange over `data_out_size`; on success the write_output_file call
and its "bytes written" message; and the err_buffs cleanup, returning `err`. -/
def gpuPhase (dataInSize : Int) (env : MainEnv) : MainOut :=
  let dataOutSize := 4 * dataInSize
  if env.errBufIn ≠ GL_NO_ERROR then
    { ret := env.errBufIn, prints := [Msg.bufInErr],
      inBufSize := some (glsizei dataInSize), teardown := true }
  else if env.errBufOut ≠ GL_NO_ERROR then
    { ret := env.errBufOut, prints := [Msg.bufOutErr],
      inBufSize := some (glsizei dataInSize),
      outBufSize := some (glsizei dataOutSize), teardown := true }
  else
    let useFail := use_shader env.errUseShader ≠ 0
    let dispFail := env.errDispatch ≠ GL_NO_ERROR
    let base : MainOut :=
      { ret := if useFail then GL_NO_ERROR else env.errDispatch,
        prints := if useFail then [Msg.useShaderFailed]
                  else if dispFail then [Msg.dispatchCompErr] else [],
        inBufSize := some (glsizei dataInSize),
        outBufSize := some (glsizei dataOutSize),
        loopIters := 1,
        dispatchDims := if useFail then none else some (WG_NUM_X, WG_NUM_Y, 1),
        waitIssued := true,
        syncAtWait := if useFail then none
                      else if dispFail then none else some env.fence,
        waitTimeout := some (100 * 1000),
        mapLen := some dataOutSize,
        teardown := true,
        reachedDispatchPhase := true }
    if ¬env.mapOk then { base with prints := base.prints ++ [Msg.mapFailed] }
    else
      { base with
        writeReq := some dataOutSize,
        fileBytes := (write_output_file dataOutSize env.outFile).fileBytes,
        prints := base.prints ++
          (if (write_output_file dataOutSize env.outFile).ret = dataOutSize then
            [Msg.bytesWritten dataOutSize] else []) }

/-- `main` (src/main.c:332-452) over argv[1..] = `args` and the external-call
oracle `env`.  Mirrors, in order: the getopt loop (src/main.c:343-357); the
positional-argument count check (src/main.c:358); `read_input_bin_file` with
`data_out_size = 4 * data_in_size` (src/main.c:363-369); `init_egl`
(exit(EXIT_FAILURE) on failure, src/main.c:372-375); `init_shader` (likewise,
src/main.c:377-380); then the GPU phase. -/
def mainRun (args : List String) (env : MainEnv) : MainOut :=
  match optLoop (getoptRun args).1 with
  | some rm => { ret := rm.1, prints := [rm.2] }
  | none =>
    if (getoptRun args).2.length ≠ 2 then { ret := -1, prints := [Msg.giveInOut] }
    else if (read_input_bin_file env.inFile).ret ≤ 0 then
      { ret := -1, prints := [Msg.failedReadInput] }
    else if (init_egl env.egl).ret ≠ 0 then
      { ret := EXIT_FAILURE, prints := [Msg.eglFailed] }
    else if init_shader env.shader ≠ 0 then
      { ret := EXIT_FAILURE, prints := [Msg.shaderFailed] }
    else gpuPhase (read_input_bin_file env.inFile).ret env

/-! ## Auxiliary predicates used by the theorems -/

/-- Whether an option event is one main's switch dispatches on ('f' or 'h'). -/
def fhChar (e : OptEvent) : Bool :=
  (eventView e).1 == 'f' || (eventView e).1 == 'h'

/-- An event is well-formed for the option string: a matched option's
character occurs in the option string. -/
def optCharOk : OptEvent → Bool
  | .opt c _ => (optLookup c).isSome
  | _ => true

/-- Whether `needle` is an initial segment of the second list. -/
def leadsWith : List Char → List Char → Bool
  | [], _ => true
  | _ :: _, [] => false
  | a :: as, b :: bs => a == b && leadsWith as bs

/-- Whether `needle` occurs contiguously anywhere in the second list. -/
def hasSeq (needle : List Char) : List Char → Bool
  | [] => needle.isEmpty
  | b :: bs => leadsWith needle (b :: bs) || hasSeq needle bs

/-! ## Concrete environments used by witnesses and counterexamples -/

/-- A file oracle for a readable file of `n` bytes. -/
def fileOkOf (n : Int) : FileEnv :=
  { openOk := true, size := n, mallocOk := true, freadBytes := n }

/-- An EGL oracle in which every call succeeds. -/
def eglAllOk : EglEnv :=
  { openOk := true, gbmOk := true, dpyOk := true, initOk := true, extOk := true,
    cfgCountOk := true, cfgOk := true, bindOk := true, ctxOk := true, curOk := true }

/-- A shader oracle in which every call succeeds (50-byte source file). -/
def shaderAllOk : ShaderEnv :=
  { srcFile := fileOkOf 50, createShaderOk := true, errCreateShader := 0,
    errAfterSource := 0, compileOk := true, logLen := 0, logMallocOk := true,
    errGetLog := 0, createProgramOk := true, errCreateProgram := 0,
    errAttach := 0, errLink := 0 }

/-- A run oracle in which every external call succeeds; the input file has 100
bytes and the output write persists all 400 requested bytes. -/
def envAllOk : MainEnv :=
  { inFile := fileOkOf 100, egl := eglAllOk, shader := shaderAllOk,
    errBufIn := 0, errBufOut := 0, errUseShader := 0, errDispatch := 0,
    fence := 42, mapOk := true, outFile := { openOk := true, fwriteBytes := 400 } }

/-- Two positional arguments, no options. -/
def argsOk : List String := ["in.raw", "out.rgba"]

/-- A file oracle whose `fread` returns fewer bytes than the size `ftell`
determined. -/
def fileShort : FileEnv :=
  { openOk := true, size := 100, mallocOk := true, freadBytes := 60 }

/-- An EGL oracle in which `gbm_create_device` fails. -/
def eglGbmFail : EglEnv := { eglAllOk with gbmOk := false }

/-- A run oracle identical to `envAllOk` except that the `fopen` of the
output file fails (e.g. an unwritable path). -/
def envOutOpenFail : MainEnv :=
  { envAllOk with outFile := { openOk := false, fwriteBytes := 0 } }

/-- A run oracle identical to `envAllOk` except that the glGetError inside
`use_shader` reports an error, so the dispatch loop body breaks before
`sync = glFenceSync(...)`. -/
def envUseShaderFail : MainEnv := { envAllOk with errUseShader := 1 }

/-- A run oracle identical to `envAllOk` except that glMapBufferRange
returns NULL. -/
def envMapFail : MainEnv := { envAllOk with mapOk := false }

/-! ## Helper lemmas -/

/-- A fully successful `read_input_file` returns the file size. -/
theorem read_input_file_ok (mode : String) (e : FileEnv) (h1 : e.openOk = true)
    (h2 : 0 < e.size) (h3 : e.mallocOk = true) (h4 : e.freadBytes = e.size) :
    (read_input_file mode e).ret = e.size := by
  unfold read_input_file
  rw [if_neg (by simp [h1]), if_neg (by omega), if_neg (by simp [h3]),
    if_neg (by simp [h4])]

/-- The `(GLsizei)` cast never increases a nonnegative `long` value. -/
theorem glsizei_le (x : Int) (hx : 0 ≤ x) : glsizei x ≤ x := by
  unfold glsizei
  omega

/-- A run whose option loop falls through, with exactly two operands, a
successful input read, and successful EGL and shader initialization, executes
the GPU phase on the input size. -/
theorem mainRun_gpu (args : List String) (env : MainEnv)
    (hopt : optLoop (getoptRun args).1 = none)
    (hops : (getoptRun args).2.length = 2)
    (h1 : env.inFile.openOk = true) (h2 : 0 < env.inFile.size)
    (h3 : env.inFile.mallocOk = true) (h4 : env.inFile.freadBytes = env.inFile.size)
    (hegl : (init_egl env.egl).ret = 0) (hsh : init_shader env.shader = 0) :
    mainRun args env = gpuPhase env.inFile.size env := by
  have hrd : (read_input_bin_file env.inFile).ret = env.inFile.size :=
    read_input_file_ok "rb" env.inFile h1 h2 h3 h4
  unfold mainRun
  rw [hopt]
  rw [if_neg (by simp [hops]), if_neg (by rw [read_input_bin_file] at *; omega),
    if_neg (by simp [hegl]), if_neg (by simp [hsh]), hrd]

/-- If the first 'f'-or-'h' event of the option stream is an 'h', the option
loop returns early with (0, usage): unknown options and operands before it do
not matter, and nothing after it is processed. -/
theorem optLoop_first_h (evs : List OptEvent) :
    ∀ e : OptEvent, evs.find? fhChar = some e → (eventView e).1 = 'h' →
      optLoop evs = some (0, Msg.usage) := by
  induction evs with
  | nil => intro e h; simp at h
  | cons x rest ih =>
    intro e hf hh
    by_cases hx : fhChar x
    · rw [List.find?_cons_of_pos _ hx] at hf
      injection hf with hxe
      subst hxe
      unfold optLoop
      rw [hh]
      simp
    · rw [List.find?_cons_of_neg _ hx] at hf
      simp only [fhChar, Bool.or_eq_true, beq_iff_eq, not_or] at hx
      unfold optLoop
      rw [if_neg hx.1, if_neg hx.2]
      exact ih e hf hh

/-- If the first option event is a successfully parsed `-f`, the option loop
returns early with (-1, "bad bayer order"), because `parse_bayer_order`
always fails. -/
theorem optLoop_head_f (a : Option String) (rest : List OptEvent) :
    optLoop (OptEvent.opt 'f' a :: rest) = some (-1, Msg.badBayer) := by
  simp [optLoop, eventView, parse_bayer_order]

/-- Every matched option `scanElem` emits has its character in the option
string. -/
theorem scanElem_chars (cs : List Char) (next : Option String) :
    ((scanElem cs next).1.all optCharOk) = true := by
  induction cs with
  | nil => simp [scanElem]
  | cons c cs ih =>
    rw [scanElem]
    unfold scanStep
    cases h : optLookup c with
    | none => simp [h, optCharOk, ih]
    | some b =>
      cases b
      · simp [h, optCharOk, ih]
      · by_cases hcs : cs.isEmpty
        · cases next <;> simp [h, hcs, optCharOk]
        · simp [h, hcs, optCharOk]

/-- Every matched option `getoptRun` emits has its character in the option
string "f:h"; in particular 's' (not in the option string) is never matched. -/
theorem getoptRun_chars (args : List String) :
    ((getoptRun args).1.all optCharOk) = true := by
  induction args using getoptRun.induct with
  | case1 => simp [getoptRun]
  | case2 rest2 => simp [getoptRun]
  | case3 head hne c cs htl hsc =>
    rw [getoptRun, if_neg hne, htl]
    simp only [List.head?_nil] at hsc
    simp [hsc, scanElem_chars]
  | case4 head hne c cs htl nxt rest2 hsc ih =>
    rw [getoptRun, if_neg hne, htl]
    simp only [List.head?_cons] at hsc
    simp [hsc, scanElem_chars, ih, List.all_append]
  | case5 head rest2 hne c cs htl hsc ih =>
    rw [getoptRun, if_neg hne, htl]
    simp only [Bool.not_eq_true] at hsc
    simp [hsc, scanElem_chars, ih, List.all_append]
  | case6 head rest2 hne hnotopt ih =>
    rw [getoptRun, if_neg hne]
    split
    · next c cs htl => exact absurd htl (fun hh => hnotopt c cs hh)
    · simpa using ih

/-- The GPU phase dispatches either not at all or with the hardcoded
workgroup-count constants. -/
theorem gpuPhase_dims (n : Int) (env : MainEnv) :
    (gpuPhase n env).dispatchDims = none ∨
    (gpuPhase n env).dispatchDims = some (WG_NUM_X, WG_NUM_Y, 1) := by
  unfold gpuPhase
  split_ifs <;> simp [apply_ite MainOut.dispatchDims] <;> tauto

/-- Every run dispatches either not at all or with the hardcoded
workgroup-count constants; nothing on the command line influences them. -/
theorem mainRun_dims (args : List String) (env : MainEnv) :
    (mainRun args env).dispatchDims = none ∨
    (mainRun args env).dispatchDims = some (WG_NUM_X, WG_NUM_Y, 1) := by
  unfold mainRun
  split
  · left; rfl
  · split_ifs <;> first | (left; rfl) | exact gpuPhase_dims _ _


/-! ## Theorems -/

/-- Claim C3: the single bounded fence wait is claimed to use a timeout of
100 ms = 100,000,000 ns.  The code (src/main.c:426-427) passes
`100*1000` = 100,000 to glClientWaitSync, whose timeout parameter is in
nanoseconds, i.e. 100 µs — contradicting the code's own `/* 100mS */`
comment.  This theorem evaluates a fully successful run: the wait is issued
with timeout 100,000 ns, which differs from 100 ms. -/
theorem claim_C3_timeout_bug :
    (mainRun argsOk envAllOk).waitIssued = true ∧
    (mainRun argsOk envAllOk).waitTimeout = some (100 * 1000) ∧
    (100 * 1000 : Int) ≠ 100000000 := by decide

set_option maxHeartbeats 1000000 in
/-- Claim C4: on every failure branch of `init_egl`, exactly the resources
acquired so far are released, in reverse order of acquisition, and the
function returns -1. -/
theorem claim_C4_unwind (env : EglEnv) (h : (init_egl env).ret ≠ 0) :
    (init_egl env).ret = -1 ∧
    (init_egl env).released = (init_egl env).acquired.reverse := by
  unfold init_egl at h ⊢
  split_ifs at h ⊢ <;>
    simp_all [relCurLabel, relCtxLabel, relDpyLabel, relGbmLabel]

/-- Witness for C4 at a concrete failing environment (gbm_create_device
fails): the fd alone was acquired and the fd alone is closed. -/
theorem claim_C4_witness :
    (init_egl eglGbmFail).ret = -1 ∧
    (init_egl eglGbmFail).released = (init_egl eglGbmFail).acquired.reverse :=
  claim_C4_unwind eglGbmFail (by decide)

/-- Claim C8: `deinit_egl` releases in exactly the reverse of the acquisition
order of a successful `init_egl`: context before display before GBM device
before file descriptor. -/
theorem claim_C8_deinit_order (env : EglEnv) (h : (init_egl env).ret = 0) :
    deinit_egl = ((init_egl env).acquired).reverse ∧
    deinit_egl = [EglRes.ctx, EglRes.dpy, EglRes.gbm, EglRes.fd] := by
  unfold init_egl at h
  split_ifs at h <;> simp_all [deinit_egl, init_egl]

/-- Witness for C8 at the all-successful EGL environment. -/
theorem claim_C8_witness :
    deinit_egl = ((init_egl eglAllOk).acquired).reverse :=
  (claim_C8_deinit_order eglAllOk (by decide)).1

/-- Claim C7: `read_input_file` opens in the requested mode, determines the
size by seeking to the end (fseek END / ftell / fseek SET directly after the
open), returns a failure value whenever the size is non-positive or the read
is short, frees the buffer on the short-read path, and on success returns the
size with buffer ownership handed to the caller. -/
theorem claim_C7_read_input (mode : String) (e : FileEnv) :
    ((read_input_file mode e).events.head? = some (FileEv.fopenEv mode)) ∧
    (e.openOk = true →
      (read_input_file mode e).events.take 4 =
        [FileEv.fopenEv mode, FileEv.fseekEnd, FileEv.ftellEv, FileEv.fseekSet]) ∧
    (e.openOk = true → e.size ≤ 0 → (read_input_file mode e).ret = -1) ∧
    (e.openOk = true → 0 < e.size → e.mallocOk = true → e.freadBytes < e.size →
      (read_input_file mode e).ret = -1 ∧
      FileEv.freeEv ∈ (read_input_file mode e).events ∧
      (read_input_file mode e).delivered = false) ∧
    (e.openOk = true → 0 < e.size → e.mallocOk = true → e.freadBytes = e.size →
      (read_input_file mode e).ret = e.size ∧
      (read_input_file mode e).delivered = true ∧
      FileEv.freeEv ∉ (read_input_file mode e).events) := by
  unfold read_input_file
  split_ifs <;> simp_all

/-- Witness for C7: a successful 100-byte read returns 100 with ownership
delivered, and a short read (60 of 100 bytes) returns -1 after freeing. -/
theorem claim_C7_witness :
    ((read_input_file "rb" (fileOkOf 100)).ret = 100 ∧
      (read_input_file "rb" (fileOkOf 100)).delivered = true) ∧
    ((read_input_file "rb" fileShort).ret = -1 ∧
      FileEv.freeEv ∈ (read_input_file "rb" fileShort).events) := by
  have h1 := claim_C7_read_input "rb" (fileOkOf 100)
  have h2 := claim_C7_read_input "rb" fileShort
  have hs := h1.2.2.2.2 rfl (by decide) rfl rfl
  have hf := h2.2.2.2.1 rfl (by decide) rfl (by decide)
  exact ⟨⟨hs.1, hs.2.1⟩, hf.1, hf.2.1⟩

/-- Claim C5 counterexample: the claim says `-h` prints usage and exits 0
regardless of the other arguments.  It fails on the code: with
`-f x -h a b` the getopt loop handles `-f` first, and since
`parse_bayer_order` always fails, main returns -1 without ever printing
usage; and with `-- -h` the `--` terminator demotes `-h` to an operand, so
main prints the operand-count error and returns -1. -/
theorem claim_C5_counterexample :
    ("-h" ∈ ["-f", "x", "-h", "a", "b"] ∧
      (mainRun ["-f", "x", "-h", "a", "b"] envAllOk).ret = -1 ∧
      Msg.usage ∉ (mainRun ["-f", "x", "-h", "a", "b"] envAllOk).prints) ∧
    ("-h" ∈ ["--", "-h"] ∧
      (mainRun ["--", "-h"] envAllOk).ret = -1 ∧
      Msg.usage ∉ (mainRun ["--", "-h"] envAllOk).prints) := by decide

/-- Claim C5 (amended): for every argument vector in which getopt yields an
`-h` option before any `-f` option (unknown options and operands anywhere do
not matter), the program prints the usage text and exits with status 0,
producing no output file. -/
theorem claim_C5_usage (args : List String) (env : MainEnv) (e : OptEvent)
    (hfind : ((getoptRun args).1.find? fhChar) = some e)
    (hh : (eventView e).1 = 'h') :
    (mainRun args env).ret = 0 ∧ (mainRun args env).prints = [Msg.usage] ∧
    (mainRun args env).fileBytes = none ∧ (mainRun args env).writeReq = none := by
  have h := optLoop_first_h (getoptRun args).1 e hfind hh
  unfold mainRun
  rw [h]
  exact ⟨rfl, rfl, rfl, rfl⟩

/-- Witness for C5 (amended): `-x -h a b` — an unknown option and operands
around the `-h` — prints usage and exits 0. -/
theorem claim_C5_witness :
    (mainRun ["-x", "-h", "a", "b"] envAllOk).ret = 0 ∧
    (mainRun ["-x", "-h", "a", "b"] envAllOk).prints = [Msg.usage] := by
  have h := claim_C5_usage ["-x", "-h", "a", "b"] envAllOk (OptEvent.opt 'h' none)
    (by decide) (by decide)
  exact ⟨h.1, h.2.1⟩

/-- Claim C6: `parse_bayer_order` returns a negative value for every argument
string, so every invocation whose first getopt-processed flag is `-f` prints
"bad bayer order" and returns -1, producing no output file. -/
theorem claim_C6_bad_bayer (args : List String) (env : MainEnv) (a : Option String)
    (rest : List OptEvent)
    (hhead : (getoptRun args).1 = OptEvent.opt 'f' a :: rest) :
    (∀ p : String, parse_bayer_order p < 0) ∧
    (mainRun args env).ret = -1 ∧ (mainRun args env).prints = [Msg.badBayer] ∧
    (mainRun args env).fileBytes = none ∧ (mainRun args env).writeReq = none := by
  have h : optLoop (getoptRun args).1 = some (-1, Msg.badBayer) := by
    rw [hhead]
    exact optLoop_head_f a rest
  constructor
  · intro pp
    unfold parse_bayer_order
    decide
  · unfold mainRun
    rw [h]
    exact ⟨rfl, rfl, rfl, rfl⟩

/-- Witness for C6: `-f GRBG in.raw out.rgba` fails with "bad bayer order"
and exit status -1, creating no output file. -/
theorem claim_C6_witness :
    (mainRun ["-f", "GRBG", "in.raw", "out.rgba"] envAllOk).ret = -1 ∧
    (mainRun ["-f", "GRBG", "in.raw", "out.rgba"] envAllOk).prints = [Msg.badBayer] ∧
    (mainRun ["-f", "GRBG", "in.raw", "out.rgba"] envAllOk).fileBytes = none := by
  have h := claim_C6_bad_bayer ["-f", "GRBG", "in.raw", "out.rgba"] envAllOk
    (some "GRBG") [] (by decide)
  exact ⟨h.2.1, h.2.2.1, h.2.2.2.1⟩

/-- Claim C10: the usage text advertises a "-s XxY" option, but the getopt
option string is "f:h", so 's' is never matched as an option by any argument
vector (every matched option character is in "f:h", and 's' is not), and the
dispatch geometry is always the hardcoded constants
WG_NUM_X = 1920/32 = 60, WG_NUM_Y = 1080/8 = 135. -/
theorem claim_C10_s_ignored :
    hasSeq ("-s XxY".toList) USAGE.toList = true ∧
    optstring = "f:h" ∧
    optLookup 's' = none ∧
    (∀ args : List String, ((getoptRun args).1.all optCharOk) = true) ∧
    WG_NUM_X = 60 ∧ WG_NUM_Y = 135 ∧
    (∀ (args : List String) (env : MainEnv),
      (mainRun args env).dispatchDims = none ∨
      (mainRun args env).dispatchDims = some (WG_NUM_X, WG_NUM_Y, 1)) :=
  ⟨by decide, rfl, by decide, getoptRun_chars, by decide, by decide, mainRun_dims⟩

/-- Witness for C10 at a concrete vector using `-s`: the option is reported
as unknown (not matched), and a successful run still dispatches 60×135. -/
theorem claim_C10_witness :
    ((getoptRun ["-s", "640x480", "in.raw", "out.rgba"]).1.all optCharOk) = true ∧
    ((mainRun argsOk envAllOk).dispatchDims = none ∨
      (mainRun argsOk envAllOk).dispatchDims = some (WG_NUM_X, WG_NUM_Y, 1)) :=
  ⟨claim_C10_s_ignored.2.2.2.1 ["-s", "640x480", "in.raw", "out.rgba"],
    claim_C10_s_ignored.2.2.2.2.2.2 argsOk envAllOk⟩

/-- Claim C2 counterexample: the claim says the fence handle passed to the
unconditional glClientWaitSync is never uninitialized, including runs where
the loop body exits early because use_shader or glDispatchCompute reported an
error.  It fails on the code: when use_shader fails, the body breaks before
`sync = glFenceSync(...)` (src/main.c:409-411), yet glClientWaitSync still
runs (src/main.c:426) — on the uninitialized `sync`, modelled as `none`. -/
theorem claim_C2_counterexample :
    (mainRun argsOk envUseShaderFail).reachedDispatchPhase = true ∧
    (mainRun argsOk envUseShaderFail).loopIters = 1 ∧
    (mainRun argsOk envUseShaderFail).waitIssued = true ∧
    (mainRun argsOk envUseShaderFail).syncAtWait = none ∧
    (mainRun argsOk envUseShaderFail).syncAtWait ≠ some envUseShaderFail.fence := by
  decide

/-- Claim C2 (amended): in every run that reaches the dispatch phase (the
hypotheses spell out: option loop fell through, two operands, input read
succeeded, init_egl and init_shader succeeded, both glBufferData error checks
passed), the loop body executes exactly once and glClientWaitSync is always
issued; the fence handle passed to it is the one glFenceSync created in that
iteration whenever the body completes (use_shader and the dispatch error
check succeed), but it is the uninitialized handle whenever the body exits
early on either error. -/
theorem claim_C2_fence (args : List String) (env : MainEnv)
    (hopt : optLoop (getoptRun args).1 = none)
    (hops : (getoptRun args).2.length = 2)
    (h1 : env.inFile.openOk = true) (h2 : 0 < env.inFile.size)
    (h3 : env.inFile.mallocOk = true) (h4 : env.inFile.freadBytes = env.inFile.size)
    (hegl : (init_egl env.egl).ret = 0) (hsh : init_shader env.shader = 0)
    (hb1 : env.errBufIn = 0) (hb2 : env.errBufOut = 0) :
    (mainRun args env).reachedDispatchPhase = true ∧
    (mainRun args env).loopIters = 1 ∧
    (mainRun args env).waitIssued = true ∧
    (env.errUseShader = 0 → env.errDispatch = 0 →
      (mainRun args env).syncAtWait = some env.fence) ∧
    (env.errUseShader ≠ 0 ∨ env.errDispatch ≠ 0 →
      (mainRun args env).syncAtWait = none) := by
  rw [mainRun_gpu args env hopt hops h1 h2 h3 h4 hegl hsh]
  unfold gpuPhase
  rw [if_neg (by simp [GL_NO_ERROR, hb1]), if_neg (by simp [GL_NO_ERROR, hb2])]
  refine ⟨?_, ?_, ?_, fun hu hd => ?_, fun hfail => ?_⟩ <;>
    simp [apply_ite MainOut.reachedDispatchPhase, apply_ite MainOut.loopIters,
      apply_ite MainOut.waitIssued, apply_ite MainOut.syncAtWait]
  · simp [use_shader, GL_NO_ERROR, hu, hd]
  · rcases hfail with hu | hd
    · simp [use_shader, GL_NO_ERROR, hu]
    · rcases eq_or_ne (use_shader env.errUseShader) 0 with h | h <;>
        simp [h, GL_NO_ERROR, hd]

/-- Witness for C2 (amended) at the all-successful run: one iteration, and
the wait receives the fence handle (42) created in that iteration. -/
theorem claim_C2_witness :
    (mainRun argsOk envAllOk).loopIters = 1 ∧
    (mainRun argsOk envAllOk).syncAtWait = some envAllOk.fence := by
  have h := claim_C2_fence argsOk envAllOk (by decide) (by decide) rfl (by decide)
    rfl rfl (by decide) (by decide) rfl rfl
  exact ⟨h.2.1, h.2.2.2.1 rfl rfl⟩

/-- Claim C9: in a run that succeeds through the dispatch (so the last
assignment to `err` is the post-dispatch glGetError, which reported 0) but
whose glMapBufferRange returns NULL, main skips the file write, still runs
the err_buffs teardown, and returns 0 — the exit status signals success even
though no output file was produced. -/
theorem claim_C9_map_fail_exit_zero (args : List String) (env : MainEnv)
    (hopt : optLoop (getoptRun args).1 = none)
    (hops : (getoptRun args).2.length = 2)
    (h1 : env.inFile.openOk = true) (h2 : 0 < env.inFile.size)
    (h3 : env.inFile.mallocOk = true) (h4 : env.inFile.freadBytes = env.inFile.size)
    (hegl : (init_egl env.egl).ret = 0) (hsh : init_shader env.shader = 0)
    (hb1 : env.errBufIn = 0) (hb2 : env.errBufOut = 0)
    (hus : env.errUseShader = 0) (hd : env.errDispatch = 0)
    (hmap : env.mapOk = false) :
    (mainRun args env).writeReq = none ∧ (mainRun args env).fileBytes = none ∧
    (mainRun args env).teardown = true ∧ (mainRun args env).ret = 0 := by
  rw [mainRun_gpu args env hopt hops h1 h2 h3 h4 hegl hsh]
  unfold gpuPhase
  rw [if_neg (by simp [GL_NO_ERROR, hb1]), if_neg (by simp [GL_NO_ERROR, hb2]),
    if_pos (by simp [hmap])]
  refine ⟨rfl, rfl, rfl, ?_⟩
  simp [use_shader, GL_NO_ERROR, hus, hd]

/-- Witness for C9: the all-successful run except for a NULL map: no write,
teardown done, exit status 0. -/
theorem claim_C9_witness :
    (mainRun argsOk envMapFail).writeReq = none ∧
    (mainRun argsOk envMapFail).fileBytes = none ∧
    (mainRun argsOk envMapFail).teardown = true ∧
    (mainRun argsOk envMapFail).ret = 0 :=
  claim_C9_map_fail_exit_zero argsOk envMapFail (by decide) (by decide) rfl
    (by decide) rfl rfl (by decide) (by decide) rfl rfl rfl rfl rfl

/-- Claim C1 counterexample: the claim asserts that whenever the input read,
the dispatch and the output mapping succeed, the output file is written with
exactly 4·S bytes.  It fails on the code: in a run where everything succeeds
(S = 100, all sizes 400) but the `fopen` of the output file fails,
`write_output_file` returns 0, main silently continues (src/main.c:437-441),
and no output file exists. -/
theorem claim_C1_counterexample :
    (envOutOpenFail.inFile.size = 100 ∧ envOutOpenFail.mapOk = true ∧
      envOutOpenFail.errDispatch = 0 ∧
      (init_egl envOutOpenFail.egl).ret = 0 ∧ init_shader envOutOpenFail.shader = 0) ∧
    (mainRun argsOk envOutOpenFail).outBufSize = some 400 ∧
    (mainRun argsOk envOutOpenFail).mapLen = some 400 ∧
    (mainRun argsOk envOutOpenFail).writeReq = some 400 ∧
    (mainRun argsOk envOutOpenFail).fileBytes ≠ some 400 := by decide

/-- Claim C1 (amended): for every run in which the input file is read
successfully with size S and the dispatch and output-mapping steps succeed,
the output-buffer size used for the dispatch, the mapping length and the
file-write size all equal exactly 4·S; and whenever the output-file fopen
and fwrite also succeed, the output file is written with exactly 4·S bytes.
`hconf` states GL conformance of the run: a successful glMapBufferRange of
`[0, 4·S)` implies the output buffer's data store (allocated with the
`(GLsizei)`-cast size) is at least 4·S, forcing the cast to be lossless. -/
theorem claim_C1_sizes (args : List String) (env : MainEnv)
    (hopt : optLoop (getoptRun args).1 = none)
    (hops : (getoptRun args).2.length = 2)
    (h1 : env.inFile.openOk = true) (h2 : 0 < env.inFile.size)
    (h3 : env.inFile.mallocOk = true) (h4 : env.inFile.freadBytes = env.inFile.size)
    (hegl : (init_egl env.egl).ret = 0) (hsh : init_shader env.shader = 0)
    (hb1 : env.errBufIn = 0) (hb2 : env.errBufOut = 0)
    (hus : env.errUseShader = 0) (hd : env.errDispatch = 0)
    (hmap : env.mapOk = true)
    (hconf : 4 * env.inFile.size ≤ glsizei (4 * env.inFile.size)) :
    (mainRun args env).outBufSize = some (4 * env.inFile.size) ∧
    (mainRun args env).mapLen = some (4 * env.inFile.size) ∧
    (mainRun args env).writeReq = some (4 * env.inFile.size) ∧
    (env.outFile.openOk = true → env.outFile.fwriteBytes = 4 * env.inFile.size →
      (mainRun args env).fileBytes = some (4 * env.inFile.size)) := by
  have hgl : glsizei (4 * env.inFile.size) = 4 * env.inFile.size :=
    le_antisymm (glsizei_le _ (by omega)) hconf
  rw [mainRun_gpu args env hopt hops h1 h2 h3 h4 hegl hsh]
  unfold gpuPhase
  rw [if_neg (by simp [GL_NO_ERROR, hb1]), if_neg (by simp [GL_NO_ERROR, hb2]),
    if_neg (by simp [hmap])]
  refine ⟨by simp [hgl], rfl, rfl, fun ho hw => ?_⟩
  show (write_output_file (4 * env.inFile.size) env.outFile).fileBytes = _
  unfold write_output_file
  rw [if_neg (by simp [ho]), if_neg (by simp [hw]), hw]

/-- Witness for C1 (amended) at the all-successful 100-byte run: all sizes
are 400 and the output file receives 400 bytes. -/
theorem claim_C1_witness :
    (mainRun argsOk envAllOk).outBufSize = some 400 ∧
    (mainRun argsOk envAllOk).mapLen = some 400 ∧
    (mainRun argsOk envAllOk).writeReq = some 400 ∧
    (mainRun argsOk envAllOk).fileBytes = some 400 := by
  have h := claim_C1_sizes argsOk envAllOk (by decide) (by decide) rfl (by decide)
    rfl rfl (by decide) (by decide) rfl rfl rfl rfl rfl (by decide)
  exact ⟨h.1, h.2.1, h.2.2.1, h.2.2.2 rfl rfl⟩

end Debayer
